import Mathlib

/-!
Shallow embedding of the django-jsonrpc-2-0 JSON-RPC 2.0 dispatcher
(`jsonrpc/service.py`, `jsonrpc/json_types.py`, `jsonrpc/signatures.py`,
`jsonrpc/errors.py`, `jsonrpc/decorators.py`) together with theorems checking
the specification's claims against it.

Conventions of the embedding:
* Decoded JSON values are a `JSONValue` inductive.  Python 2's `json.loads`
  decodes JSON strings to `unicode`, numbers to `int`/`float`, arrays to
  `list`, objects to `dict`, `true`/`false` to `bool` and `null` to `None`.
* Python runtime types (and the value `None`, which appears inside the
  accepted-type tuples of `json_types.py`) are the enumeration `PyObj`.
  Python's `x in tup` membership test compares with `==`, which for type
  objects (and for `None`) is identity, so it is plain equality on `PyObj`.
* Python exceptions are `PyException`: either a `JSONRPCError` instance
  (from `errors.py`, carrying code / message / details / http_status) or any
  other exception, carried by its class name only.
* Python dicts are association lists where a later entry for a key shadows an
  earlier one; `dictGet` is lookup, `dictSet` is item assignment and
  `dictUpdate` is `dict.update`.  This models exactly the get/set/update
  behaviour the source relies on.
-/

namespace JsonRpc

/-- A decoded JSON value (the result of `json.loads` in Python 2). -/
inductive JSONValue where
  | null
  | bool (b : Bool)
  | int (n : Int)
  | float (q : Rat)
  | str (s : String)
  | arr (l : List JSONValue)
  | obj (l : List (String × JSONValue))

/-- Python's `v is None` test. -/
def JSONValue.isNull : JSONValue → Bool
  | .null => true
  | _ => false

/-- Python runtime type objects appearing in `json_types.py`, plus the value
`None` itself, which the source lists inside the `nil` and `any` tuples. -/
inductive PyObj where
  | tyBool
  | tyFloat
  | tyInt
  | tyDecimal
  | tyBasestring
  | tyStr
  | tyUnicode
  | tyList
  | tyDict
  | tyNoneType
  | noneV
  deriving BEq, DecidableEq

/-- Python's `type(v)` for a decoded JSON value: strings decode to `unicode`,
numbers to `int` or `float`, `null` to `None` whose type is `NoneType`. -/
def pyTypeOf : JSONValue → PyObj
  | .null => .tyNoneType
  | .bool _ => .tyBool
  | .int _ => .tyInt
  | .float _ => .tyFloat
  | .str _ => .tyUnicode
  | .arr _ => .tyList
  | .obj _ => .tyDict

/-- The `JSONType.json_types` mapping of `json_types.py` (the module
`service.py` imports): each type tag maps to the tuple of accepted members,
verbatim.  Note that the `nil` and `any` tuples contain the value `None`,
not the type `NoneType`. -/
def json_types : String → Option (List PyObj)
  | "bit" => some [.tyBool]
  | "num" => some [.tyFloat, .tyInt, .tyDecimal]
  | "str" => some [.tyBasestring, .tyStr, .tyUnicode]
  | "arr" => some [.tyList]
  | "obj" => some [.tyDict]
  | "nil" => some [.noneV]
  | "any" => some [.tyBool, .tyFloat, .tyInt, .tyDecimal, .tyStr, .tyUnicode,
                   .tyList, .tyDict, .noneV]
  | _ => none

/-- `JSONType.by_python_type`: scans the `json_types` dict for a key other
than `any` whose tuple contains the given member, returning `none` for the
`ValueError` case.  The tuples for the non-`any` keys are pairwise disjoint,
so the arbitrary Python 2 dict iteration order does not matter. -/
def by_python_type (t : PyObj) : Option String :=
  if [PyObj.tyBool].contains t then some "bit"
  else if [PyObj.tyFloat, .tyInt, .tyDecimal].contains t then some "num"
  else if [PyObj.tyBasestring, .tyStr, .tyUnicode].contains t then some "str"
  else if [PyObj.tyList].contains t then some "arr"
  else if [PyObj.tyDict].contains t then some "obj"
  else if [PyObj.noneV].contains t then some "nil"
  else none

/-- A `JSONRPCError` instance from `errors.py`: code, effective message,
effective `details` attribute (`getattr(ex, 'details', None)`) and
`http_status`. -/
structure JSONRPCErrorInst where
  code : Int
  message : String
  details : Option String
  http_status : Nat
  deriving DecidableEq

/-- `ParseError(message, details)`: code -32700, class details default. -/
def parseError (message details : Option String) : JSONRPCErrorInst :=
  ⟨-32700, message.getD "Parse error",
   some (details.getD ("Invalid JSON was received by the server. An error " ++
     "occurred on the server while parsing the JSON text.")), 500⟩

/-- `InvalidRequestError(message, details)`: code -32600, HTTP 400. -/
def invalidRequestError (message details : Option String) : JSONRPCErrorInst :=
  ⟨-32600, message.getD "Invalid request",
   some (details.getD "The JSON sent is not a valid Request object."), 400⟩

/-- `MethodNotFoundError(details=...)`: code -32601, HTTP 404. -/
def methodNotFoundError (details : Option String) : JSONRPCErrorInst :=
  ⟨-32601, "Method not found",
   some (details.getD "The method does not exist / is not available."), 404⟩

/-- `InvalidParamsError(details=...)`: code -32602; the class declares no
`details` attribute, so the effective details are exactly the argument. -/
def invalidParamsError (details : Option String) : JSONRPCErrorInst :=
  ⟨-32602, "Invalid params", details, 500⟩

/-- `InternalError(details=...)`: code -32603, HTTP 500. -/
def internalError (details : Option String) : JSONRPCErrorInst :=
  ⟨-32603, "Internal error",
   some (details.getD "Internal JSON-RPC error."), 500⟩

/-- A raised Python exception: a `JSONRPCError` instance, or any other
exception represented by its class name. -/
inductive PyException where
  | jsonrpc (e : JSONRPCErrorInst)
  | other (className : String)

/-- Python's `isinstance(ex, JSONRPCError)`. -/
def PyException.isJsonrpc : PyException → Bool
  | .jsonrpc _ => true
  | .other _ => false

/-- A declared parameter from a parsed signature, as stored by the `jrpc`
decorator: `{'name': ..., 'type': ..., 'optional': ...}`. -/
structure Param where
  name : String
  type : String
  optional : Bool
  deriving DecidableEq

/-- Python dict lookup on an association list where a later entry for the
same key shadows an earlier one. -/
def dictGet {α : Type} : List (String × α) → String → Option α
  | [], _ => none
  | (k', v) :: rest, k =>
    match dictGet rest k with
    | some r => some r
    | none => if k' == k then some v else none

/-- Python dict item assignment `d[k] = v` (with respect to `dictGet`). -/
def dictSet {α : Type} (d : List (String × α)) (k : String) (v : α) :
    List (String × α) :=
  d ++ [(k, v)]

/-- Python `d.update(s)`: every entry of `s` is assigned into `d`. -/
def dictUpdate {α : Type} (d s : List (String × α)) : List (String × α) :=
  s.foldl (fun r kv => dictSet r kv.1 kv.2) d

/-- Validated params as passed to the handler: positional (`*args`) for
list-style params, keyword (`**kwargs`) for dict-style params. -/
inductive ValidatedParams where
  | pos (l : List JSONValue)
  | kw (l : List (String × JSONValue))

/-- The `list` branch of `JSONRPCService._valid_params` (service.py lines
367-391): walk the declared params in order; a missing value is replaced by
`None` when the param is optional and otherwise raises `InvalidParamsError`
naming the param; then `JSONType(defined['type']) == type(provided)` is
checked (an unknown tag makes the `JSONType` constructor raise `ValueError`),
with an optional param always allowed to be `None`.  Extra supplied values
beyond the declared list are dropped. -/
def validSeqParams : List Param → List JSONValue →
    Except PyException (List JSONValue)
  | [], _ => .ok []
  | d :: ds, ps =>
    let provided? : Except PyException JSONValue :=
      match ps with
      | p :: _ => .ok p
      | [] =>
        if d.optional then .ok JSONValue.null
        else .error (.jsonrpc (invalidParamsError (some
          ("Parameter `" ++ d.name ++ "` is required, but was not provided"))))
    match provided? with
    | .error e => .error e
    | .ok provided =>
      match json_types d.type with
      | none => .error (.other "ValueError")
      | some tup =>
        if !(tup.contains (pyTypeOf provided)) then
          if d.optional && provided.isNull then
            (validSeqParams ds ps.tail).map (fun l => provided :: l)
          else
            .error (.jsonrpc (invalidParamsError (some
              ("`" ++ d.name ++ "` param should be of type " ++ d.type))))
        else
          (validSeqParams ds ps.tail).map (fun l => provided :: l)

/-- The `dict` branch of `JSONRPCService._valid_params` (service.py lines
393-414): the same per-param logic keyed by declared name; keys of the
supplied mapping that are not declared are dropped. -/
def validMapParams : List Param → List (String × JSONValue) →
    Except PyException (List (String × JSONValue))
  | [], _ => .ok []
  | d :: ds, ps =>
    let provided? : Except PyException JSONValue :=
      match dictGet ps d.name with
      | some p => .ok p
      | none =>
        if d.optional then .ok JSONValue.null
        else .error (.jsonrpc (invalidParamsError (some
          ("Parameter `" ++ d.name ++ "` is required, but was not provided"))))
    match provided? with
    | .error e => .error e
    | .ok provided =>
      match json_types d.type with
      | none => .error (.other "ValueError")
      | some tup =>
        if !(tup.contains (pyTypeOf provided)) then
          if d.optional && provided.isNull then
            (validMapParams ds ps).map (fun l => (d.name, provided) :: l)
          else
            .error (.jsonrpc (invalidParamsError (some
              ("`" ++ d.name ++ "` param should be of type " ++ d.type))))
        else
          (validMapParams ds ps).map (fun l => (d.name, provided) :: l)

/-- `JSONRPCService._valid_params` (service.py lines 361-417): dispatch on
`type(params)` being exactly `list` or `dict`, otherwise
`InvalidParamsError`. -/
def valid_params (defined : List Param) (params : JSONValue) :
    Except PyException ValidatedParams :=
  match params with
  | .arr l => (validSeqParams defined l).map .pos
  | .obj l => (validMapParams defined l).map .kw
  | _ => .error (.jsonrpc (invalidParamsError (some
      "The `params` argument must be an array or object")))

/-- `JSONRPCServiceMeta.__new__` (service.py lines 36-55): the new type's
`rpc_methods` dict starts empty, is updated with each direct base's
`rpc_methods` in the order the bases are declared, and then every decorated
member declared on the type itself is assigned under its
`rpc_method_name`.  Each base's dict is the one this same construction
produced for that base, so it already merges that base's own ancestors. -/
def rpcMethods {α : Type} (bases : List (List (String × α)))
    (own : List (String × α)) : List (String × α) :=
  own.foldl (fun r kv => dictSet r kv.1 kv.2) (bases.foldl dictUpdate [])

/-- Modelled from the spec: the aggregation rule as the specification words
it — "its registry is seeded by copying every ancestor type's registry (in
method-resolution order, most-general first) then overwritten key-by-key by
descriptors declared directly on the new type".  The ancestor registries are
supplied already ordered most-general first. -/
def mroRegistry {α : Type} (ancestorsMostGeneralFirst : List (List (String × α)))
    (own : List (String × α)) : List (String × α) :=
  own.foldl (fun r kv => dictSet r kv.1 kv.2)
    (ancestorsMostGeneralFirst.foldl dictUpdate [])

/-- Left-biased choice on options (eager `or`). -/
def optOr {α : Type} (a b : Option α) : Option α :=
  match a with
  | some v => some v
  | none => b

/-- Name resolution described by the amended aggregation rule: a key declared
directly on the type wins; otherwise the latest-declared direct base that
knows the key wins. -/
def resolveOwnThenBases {α : Type} (bases : List (List (String × α)))
    (own : List (String × α)) (name : String) : Option α :=
  optOr (dictGet own name)
    (bases.foldl (fun acc b => optOr (dictGet b name) acc) none)

/-- Python 2 `\w` (no LOCALE/UNICODE flag): ASCII letters, digits and
underscore. -/
def isW (c : Char) : Bool :=
  c.isAlphanum || c == '_'

/-- A character allowed in a method name by `SIG_RE`: `[\w\.]`. -/
def isNameC (c : Char) : Bool :=
  isW c || c == '.'

/-- `re.match(ARG_RE, arg)` for
`ARG_RE = r'^(?P<name>\w+)=<(?P<type>\w+)>(?:(?P<optional>[\?])?)$'`
(signatures.py line 13): a word name, `=<`, a word type, `>`, and an
optional trailing `?`.  Returns `(name, type, optional)` on a match. -/
def argMatch (s : String) : Option (String × String × Bool) :=
  let cs := s.toList
  let n := cs.takeWhile isW
  if n.isEmpty then none
  else
    match cs.dropWhile isW with
    | '=' :: '<' :: r2 =>
      let t := r2.takeWhile isW
      if t.isEmpty then none
      else
        match r2.dropWhile isW with
        | ['>'] => some (String.mk n, String.mk t, false)
        | ['>', '?'] => some (String.mk n, String.mk t, true)
        | _ => none
    | _ => none

/-- `re.match(SIG_RE, sig)` for
`SIG_RE = r'^(?P<name>[\w\.]+)\((?P<args>.*)\)(?: -> <(?P<rtype>\w+)>)$'`
(signatures.py line 10).  The name is the maximal leading `[\w.]` run (no
shorter run can be followed by `(`); the greedy `.*` forces the suffix
`) -> <rtype>` to sit at the very end with `rtype` the maximal word run
before the final `>`.  `.` in Python does not match a newline, hence the
newline guard on the args region.  Returns `(name, args, rtype)`. -/
def sigMatch (s : String) : Option (String × String × String) :=
  let cs := s.toList
  let n := cs.takeWhile isNameC
  if n.isEmpty then none
  else
    match cs.dropWhile isNameC with
    | '(' :: r2 =>
      match r2.reverse with
      | '>' :: r3 =>
        let rt := r3.takeWhile isW
        if rt.isEmpty then none
        else
          match r3.dropWhile isW with
          | '<' :: ' ' :: '>' :: '-' :: ' ' :: ')' :: r5 =>
            if r5.any (· == '\n') then none
            else some (String.mk n, String.mk r5.reverse, String.mk rt.reverse)
          | _ => none
      | _ => none
    | _ => none

/-- Python 2 `args.split(', ')`: split on each non-overlapping occurrence of
the two-character separator, scanning left to right. -/
def splitCSAux : List Char → List Char → List (List Char)
  | [], acc => [acc.reverse]
  | ',' :: ' ' :: rest, acc => acc.reverse :: splitCSAux rest []
  | c :: rest, acc => splitCSAux rest (c :: acc)

/-- `args.split(', ')` on strings. -/
def splitCommaSpace (s : String) : List String :=
  (splitCSAux s.toList []).map String.mk

/-- The three failures of `params_from_signature` (signatures.py lines
34-73): the generic signature error when `SIG_RE` does not match, the
generic params error when an argument token does not match `ARG_RE`
(`AttributeError` on `match.group`), and the dedicated ordering error when a
required param follows an optional one.  Each names the offending
signature, as the format strings in the source do. -/
inductive SigError where
  | sigSyntaxErr (sig : String)
  | paramsSyntaxErr (sig : String)
  | orderingErr (sig : String)
  deriving DecidableEq

/-- The argument loop of `params_from_signature` (signatures.py lines
52-68): thread the `opt_flag`, fail with the generic params error on a
non-matching token, and with the dedicated ordering error when a required
token is seen after `opt_flag` was set. -/
def parseArgsLoop (sig : String) :
    List String → Bool → Except SigError (List (String × String × Bool))
  | [], _ => .ok []
  | arg :: rest, optFlag =>
    match argMatch arg with
    | none => .error (.paramsSyntaxErr sig)
    | some (n, t, opt) =>
      if opt then
        (parseArgsLoop sig rest true).map (fun l => (n, t, true) :: l)
      else if optFlag then
        .error (.orderingErr sig)
      else
        (parseArgsLoop sig rest false).map (fun l => (n, t, false) :: l)

/-- `params_from_signature` (signatures.py lines 34-73): match `SIG_RE`,
and when the args group is non-empty split it on `', '` and run the
argument loop. -/
def params_from_signature (sig : String) :
    Except SigError (List (String × String × Bool)) :=
  match sigMatch sig with
  | none => .error (.sigSyntaxErr sig)
  | some (_, args, _) =>
    if args.isEmpty then .ok []
    else parseArgsLoop sig (splitCommaSpace args) false

/-- Statement helper: run `argMatch` over every token, in the manner of the
loop, yielding the parsed triples when all tokens are well formed. -/
def argMatches : List String → Option (List (String × String × Bool))
  | [] => some []
  | t :: ts =>
    match argMatch t, argMatches ts with
    | some p, some ps => some (p :: ps)
    | _, _ => none

/-- Statement helper: the optional-flags list contains an optional entry
followed (not necessarily immediately) by a required one. -/
def reqAfterOpt : List Bool → Bool
  | [] => false
  | b :: rest => if b then rest.any (fun x => !x) else reqAfterOpt rest

/-- The per-service configuration set in `JSONRPCService.__init__`
(service.py lines 103-115). -/
structure ServiceCfg where
  debug : Bool
  can_get : Bool
  http_errors : Bool
  verbose : Bool

/-- A registered method descriptor, as attached by the `jrpc` decorator
(decorators.py lines 27-50), restricted to the fields the dispatcher
consults, plus the bound method itself: calling it either returns a result
or raises. -/
structure MethodDesc where
  rpc_params : List Param
  rpc_safe : Bool
  describe : Bool
  handler : ValidatedParams → Except PyException JSONValue

/-- `JSONRPCService._dispatch` (service.py lines 442-474): look the name up
in `self.methods`; unknown names raise `MethodNotFoundError`; a GET request
against a service whose `can_get` flag is unset raises `MethodNotFoundError`
as well (the descriptor's `rpc_safe` flag is not consulted anywhere in this
method); then the params are validated and the method is called. -/
def dispatch (cfg : ServiceCfg) (httpGet : Bool)
    (methods : List (String × MethodDesc)) (method_name : String)
    (params : JSONValue) : Except PyException JSONValue :=
  match dictGet methods method_name with
  | none => .error (.jsonrpc (methodNotFoundError (some
      ("Method `" ++ method_name ++ "` not found"))))
  | some m =>
    if httpGet && !cfg.can_get then
      .error (.jsonrpc (methodNotFoundError (some
        ("Method `" ++ method_name ++
         "` was either not found, or is not available via GET requests"))))
    else
      match valid_params m.rpc_params params with
      | .error e => .error e
      | .ok vp => m.handler vp

/-- The JSON-RPC error object built by `JSONRPCService._error_dict`
(service.py lines 419-440): code, message, `data.details`, and whether a
`data.traceback` entry was attached (it is exactly when `self.debug`). -/
structure ErrorDict where
  code : Int
  message : String
  details : Option String
  hasTraceback : Bool
  deriving DecidableEq

/-- `JSONRPCService._error_dict`: a `JSONRPCError` contributes its own code,
message and details; any other exception is replaced by
`InternalError(details=u'An internal error has occurred')`. -/
def error_dict (debug : Bool) (ex : PyException) : ErrorDict :=
  match ex with
  | .jsonrpc e => ⟨e.code, e.message, e.details, debug⟩
  | .other _ =>
    let e := internalError (some "An internal error has occurred")
    ⟨e.code, e.message, e.details, debug⟩

/-- A value stored in the response dict: the echoed id or the result (JSON
values), the version string, the error object, or the debug block (whose
database-query contents are outside this embedding). -/
inductive RVal where
  | j (v : JSONValue)
  | jstr (s : String)
  | err (e : ErrorDict)
  | dbg

/-- The outcome of `JSONRPCService._response` (service.py lines 314-359):
the response dict and the HTTP status handed to `HttpResponse`.  JSON-P
padding and `verbose` indentation only shape the serialized text, not the
dict or the status. -/
structure RpcHttpResponse where
  body : List (String × RVal)
  status : Nat

/-- `JSONRPCService._response`: start from `{'id': rid, 'jsonrpc': '2.0'}`;
with an exception attach `error` and derive the status from the error's
`http_status` (`getattr` default 500) unless `http_errors` is off, in which
case always 200; otherwise attach `result` with status 200; finally attach
the `debug` block when in debug mode. -/
def response (cfg : ServiceCfg) (ex : Option PyException) (result : JSONValue)
    (rid : Option JSONValue) : RpcHttpResponse :=
  let body0 : List (String × RVal) :=
    [("id", .j (rid.getD .null)), ("jsonrpc", .jstr "2.0")]
  let withPayload : List (String × RVal) × Nat :=
    match ex with
    | some e =>
      let status := if cfg.http_errors then
          (match e with
           | .jsonrpc je => je.http_status
           | .other _ => 500)
        else 200
      (dictSet body0 "error" (.err (error_dict cfg.debug e)), status)
    | none => (dictSet body0 "result" (.j result), 200)
  let body1 := if cfg.debug then dictSet withPayload.1 "debug" .dbg
    else withPayload.1
  ⟨body1, withPayload.2⟩

/-- How a call leaves the service: as an `HttpResponse`, or re-raised to the
transport layer. -/
inductive CallOutcome where
  | response (r : RpcHttpResponse)
  | reraise (ex : PyException)

/-- The tail of `JSONRPCService.__call__` (service.py lines 138-173): a
successful dispatch becomes a result response; an exception is re-raised
when `self.debug` is set, the request is not AJAX and the exception is not a
`JSONRPCError`, and otherwise becomes an error response. -/
def finishCall (cfg : ServiceCfg) (isAjax : Bool) (rid : Option JSONValue)
    (outcome : Except PyException JSONValue) : CallOutcome :=
  match outcome with
  | .ok result => .response (response cfg none result rid)
  | .error ex =>
    if cfg.debug && !isAjax && !ex.isJsonrpc then .reraise ex
    else .response (response cfg (some ex) .null rid)

/-- Python's `isinstance(rid, (int, basestring))` on a decoded JSON value:
`bool` is a subclass of `int` in Python, so booleans pass. -/
def isinstance_int_or_basestring : JSONValue → Bool
  | .bool _ => true
  | .int _ => true
  | .str _ => true
  | _ => false

/-- Python's `isinstance(rid, basestring)` on a decoded JSON value. -/
def isinstance_basestring : JSONValue → Bool
  | .str _ => true
  | _ => false

/-- `JSONRPCService._valid_jsonrpc_id` (service.py lines 230-247): the id
must be present and `isinstance` of `(int, basestring)`, and a string id
must be non-empty.  In the mismatch branch the source interpolates the
`JSONType` found by `by_python_type` into the details (the interpolation
renders the object's default repr, which contains a transient address, so
the modelled details use a fixed placeholder; no claim depends on this
string), and `by_python_type` itself raises `ValueError` for `NoneType`. -/
def valid_jsonrpc_id (json_req : List (String × JSONValue)) :
    Except PyException JSONValue :=
  match dictGet json_req "id" with
  | none => .error (.jsonrpc (invalidRequestError none (some
      "A request `id` is required")))
  | some rid =>
    if !(isinstance_int_or_basestring rid) then
      match by_python_type (pyTypeOf rid) with
      | none => .error (.other "ValueError")
      | some _ => .error (.jsonrpc (invalidRequestError none (some
          ("Request `id` must be a `str` or `int` (string or integer), " ++
           "not the provided type"))))
    else
      match rid with
      | .str s =>
        if s.isEmpty then
          .error (.jsonrpc (invalidRequestError none (some
            "The request `id` cannot be an empty string")))
        else .ok rid
      | _ => .ok rid

/-- C1: validating sequence-style params against a method descriptor returns
the supplied values unchanged when every value's kind matches its declared
tag; a missing trailing optional parameter is filled with the nil value; and
a missing required parameter fails with `InvalidParamsError` whose details
name parameter `b`. -/
theorem c1_valid_params_roundtrip :
    valid_params [⟨"a", "num", false⟩, ⟨"b", "str", false⟩]
        (.arr [.int 1, .str "x"]) = .ok (.pos [.int 1, .str "x"]) ∧
    valid_params [⟨"a", "num", false⟩, ⟨"b", "str", true⟩]
        (.arr [.int 1]) = .ok (.pos [.int 1, .null]) ∧
    valid_params [⟨"a", "num", false⟩, ⟨"b", "str", false⟩]
        (.arr [.int 1]) = .error (.jsonrpc (invalidParamsError (some
          "Parameter `b` is required, but was not provided"))) :=
  ⟨rfl, rfl, rfl⟩

/-- C4: contrary to the claim, the `any` tag does not accept `null` on a
required parameter: the `any` tuple contains the value `None`, not the type
`NoneType`, so `JSONType('any') == type(None)` is false and validation
raises `InvalidParamsError`.  Every non-null value kind does pass through
unchanged, and `null` passes only when the parameter is optional. -/
theorem c4_any_rejects_null :
    valid_params [⟨"a", "any", false⟩] (.arr [.null])
        = .error (.jsonrpc (invalidParamsError (some
          "`a` param should be of type any"))) ∧
    valid_params [⟨"a", "any", false⟩] (.arr [.bool true])
        = .ok (.pos [.bool true]) ∧
    valid_params [⟨"a", "any", false⟩] (.arr [.int 7])
        = .ok (.pos [.int 7]) ∧
    valid_params [⟨"a", "any", false⟩] (.arr [.float 0])
        = .ok (.pos [.float 0]) ∧
    valid_params [⟨"a", "any", false⟩] (.arr [.str "s"])
        = .ok (.pos [.str "s"]) ∧
    valid_params [⟨"a", "any", false⟩] (.arr [.arr []])
        = .ok (.pos [.arr []]) ∧
    valid_params [⟨"a", "any", false⟩] (.arr [.obj []])
        = .ok (.pos [.obj []]) ∧
    valid_params [⟨"a", "any", true⟩] (.arr [.null])
        = .ok (.pos [.null]) :=
  ⟨rfl, rfl, rfl, rfl, rfl, rfl, rfl, rfl⟩

/-- C9: a required parameter declared with the `nil` tag can never be
satisfied — for every supplied value, including `null` itself, validation
fails with `InvalidParamsError`, because the `nil` tuple holds the value
`None` rather than the type `NoneType`; only marking the parameter optional
lets a `null` value pass. -/
theorem c9_nil_required_unsatisfiable :
    (∀ v : JSONValue, valid_params [⟨"a", "nil", false⟩] (.arr [v])
        = .error (.jsonrpc (invalidParamsError (some
          "`a` param should be of type nil")))) ∧
    valid_params [⟨"a", "nil", true⟩] (.arr [.null]) = .ok (.pos [.null]) := by
  refine ⟨fun v => ?_, rfl⟩
  cases v <;> rfl

/-- Lookup in a concatenation prefers the later (right) block. -/
theorem dictGet_append {α : Type} (r s : List (String × α)) (k : String) :
    dictGet (r ++ s) k = optOr (dictGet s k) (dictGet r k) := by
  induction r with
  | nil => cases h : dictGet s k <;> simp [optOr, dictGet, h]
  | cons kv r' ih =>
    obtain ⟨k', v⟩ := kv
    show dictGet ((k', v) :: (r' ++ s)) k = _
    simp only [dictGet, ih]
    cases dictGet s k <;> cases dictGet r' k <;> simp [optOr, dictGet]

/-- Folding item assignments appends the assigned entries. -/
theorem foldl_dictSet_eq_append {α : Type} (own : List (String × α))
    (r0 : List (String × α)) :
    own.foldl (fun r kv => dictSet r kv.1 kv.2) r0 = r0 ++ own := by
  induction own generalizing r0 with
  | nil => simp
  | cons kv rest ih => rw [List.foldl_cons, ih, dictSet]; simp

/-- `dict.update` is concatenation in this model. -/
theorem dictUpdate_eq_append {α : Type} (r s : List (String × α)) :
    dictUpdate r s = r ++ s :=
  foldl_dictSet_eq_append s r

/-- Lookup through the base-merging fold: the latest base holding the key
wins, with the accumulator as fallback. -/
theorem dictGet_foldl_dictUpdate {α : Type} (k : String)
    (bases : List (List (String × α))) (r0 : List (String × α)) :
    dictGet (bases.foldl dictUpdate r0) k
      = bases.foldl (fun acc b => optOr (dictGet b k) acc) (dictGet r0 k) := by
  induction bases generalizing r0 with
  | nil => rfl
  | cons b bs ih =>
    simp only [List.foldl_cons, ih, dictUpdate_eq_append, dictGet_append]

/-- C2 (amended): the registry built by `JSONRPCServiceMeta.__new__` resolves
a name to the descriptor declared directly on the type when there is one,
and otherwise to the descriptor of the latest direct base (in declaration
order) whose registry holds the name; in particular a subtype declaring a
procedure with the same name as an ancestor's resolves to the subtype's
handler. -/
theorem c2_rpc_methods_resolution {α : Type}
    (bases : List (List (String × α))) (own : List (String × α))
    (name : String) :
    dictGet (rpcMethods bases own) name = resolveOwnThenBases bases own name := by
  unfold rpcMethods resolveOwnThenBases
  rw [foldl_dictSet_eq_append, dictGet_append, dictGet_foldl_dictUpdate]
  rfl

/-- C2 counterexample: for a class `C(A, B)` where `A` declares `m ↦ 1` and
`B` declares `m ↦ 2`, Python's method-resolution order is `[C, A, B,
object]`, so copying every ancestor registry most-general first means the
order `[object, B, A]` and resolves `m` to `A`'s handler — but the
metaclass iterates the bases in declaration order, so `B`'s handler wins:
the registry is not the most-general-first MRO merge. -/
theorem c2_counterexample_mro_order :
    dictGet (rpcMethods [[("m", 1)], [("m", 2)]] ([] : List (String × Nat)))
        "m" = some 2 ∧
    dictGet (mroRegistry [[], [("m", 2)], [("m", 1)]]
        ([] : List (String × Nat))) "m" = some 1 ∧
    dictGet (rpcMethods [[("m", 1)], [("m", 2)]] ([] : List (String × Nat)))
        "m"
      ≠ dictGet (mroRegistry [[], [("m", 2)], [("m", 1)]]
        ([] : List (String × Nat))) "m" :=
  ⟨rfl, rfl, by decide⟩

/-- C3 (amended): for a GET request naming a registered method, `_dispatch`
proceeds to parameter validation and invocation exactly when the service's
global `can_get` flag is set — the descriptor's `safe` flag is never
consulted; otherwise it raises `MethodNotFoundError` (code -32601), the very
same error kind raised for an unknown method name, never a distinct
permission error. -/
theorem c3_get_gate_can_get_only (cfg : ServiceCfg)
    (methods : List (String × MethodDesc)) (name : String) (m : MethodDesc)
    (params : JSONValue) (h : dictGet methods name = some m) :
    (cfg.can_get = true → dispatch cfg true methods name params =
      (match valid_params m.rpc_params params with
       | .error e => .error e
       | .ok vp => m.handler vp)) ∧
    (cfg.can_get = false →
      dispatch cfg true methods name params =
        .error (.jsonrpc (methodNotFoundError (some
          ("Method `" ++ name ++
           "` was either not found, or is not available via GET requests")))) ∧
      (methodNotFoundError (some
        ("Method `" ++ name ++
         "` was either not found, or is not available via GET requests"))).code
        = -32601) ∧
    (∀ name2, dictGet methods name2 = none →
      dispatch cfg true methods name2 params =
        .error (.jsonrpc (methodNotFoundError (some
          ("Method `" ++ name2 ++ "` not found")))) ∧
      (methodNotFoundError (some
        ("Method `" ++ name2 ++ "` not found"))).code = -32601) := by
  refine ⟨fun hcg => ?_, fun hcg => ⟨?_, rfl⟩, fun name2 h2 => ⟨?_, rfl⟩⟩
  · simp [dispatch, h, hcg]
  · simp [dispatch, h, hcg]
  · simp [dispatch, h2]

/-- Witness for C3: a service with `can_get` unset, a registered method
whose descriptor has `safe = true`, and a GET request — the gate still
raises `MethodNotFoundError`. -/
theorem c3_get_gate_witness :
    dispatch ⟨false, false, true, false⟩ true
      [("m", ⟨[], true, true, fun _ => .ok JSONValue.null⟩)] "m" (.arr [])
      = .error (.jsonrpc (methodNotFoundError (some
        "Method `m` was either not found, or is not available via GET requests"))) :=
  ((c3_get_gate_can_get_only ⟨false, false, true, false⟩
    [("m", ⟨[], true, true, fun _ => .ok JSONValue.null⟩)] "m"
    ⟨[], true, true, fun _ => .ok JSONValue.null⟩ (.arr []) rfl).2.1 rfl).1

/-- C3 counterexample: the claim says a GET request reaching a descriptor
with its `safe` flag set proceeds even when the global override is unset —
but the code raises `MethodNotFoundError` for it, since `_dispatch` never
reads `rpc_safe`. -/
theorem c3_counterexample_safe_flag_ignored :
    dispatch ⟨false, false, true, false⟩ true
      [("safe_method", ⟨[], true, true, fun _ => .ok JSONValue.null⟩)]
      "safe_method" (.arr [])
      = .error (.jsonrpc (methodNotFoundError (some
        ("Method `safe_method` was either not found, or is not available " ++
         "via GET requests")))) := rfl

/-- C5: outside the debug non-AJAX escape hatch, an exception raised during
invocation that is not a recognized JSON-RPC error becomes an error response
carrying `InternalError`'s code -32603 and message, while a recognized
JSON-RPC error becomes a response carrying its own code, message and details
unchanged. -/
theorem c5_internal_error_wrapping (cfg : ServiceCfg) (isAjax : Bool)
    (rid : Option JSONValue) (ex : PyException)
    (h : cfg.debug = false ∨ isAjax = true) :
    ∃ r, finishCall cfg isAjax rid (.error ex) = .response r ∧
      dictGet r.body "error" = some (.err (match ex with
        | .jsonrpc e => ⟨e.code, e.message, e.details, cfg.debug⟩
        | .other _ => ⟨-32603, "Internal error",
            some "An internal error has occurred", cfg.debug⟩)) := by
  obtain ⟨d, g, he, v⟩ := cfg
  change d = false ∨ isAjax = true at h
  cases ex with
  | jsonrpc e =>
    refine ⟨response ⟨d, g, he, v⟩ (some (.jsonrpc e)) .null rid, ?_, ?_⟩
    · simp [finishCall, PyException.isJsonrpc]
    · cases d <;> rfl
  | other s =>
    refine ⟨response ⟨d, g, he, v⟩ (some (.other s)) .null rid, ?_, ?_⟩
    · rcases h with hd | ha
      · subst hd; simp [finishCall]
      · subst ha; simp [finishCall, PyException.isJsonrpc]
    · cases d <;> rfl

/-- Witness for C5: a plain `RuntimeError` raised by a handler of a
non-debug service becomes an error response with code -32603. -/
theorem c5_internal_error_witness :
    ∃ r, finishCall ⟨false, false, true, false⟩ false none
        (.error (.other "RuntimeError")) = .response r ∧
      dictGet r.body "error" = some (.err ⟨-32603, "Internal error",
        some "An internal error has occurred", false⟩) :=
  c5_internal_error_wrapping ⟨false, false, true, false⟩ false none
    (.other "RuntimeError") (Or.inl rfl)

/-- C6: a request naming an undeclared method raises `MethodNotFoundError`
(code -32601) and its response has HTTP status 404 when `http_errors` is on
and 200 otherwise; in general the status of an error response is the error's
declared `http_status` unless the service always returns 200. -/
theorem c6_unknown_method_404 (cfg : ServiceCfg) (isGet : Bool)
    (methods : List (String × MethodDesc)) (name : String)
    (params : JSONValue) (rid : Option JSONValue) (e : JSONRPCErrorInst)
    (h : dictGet methods name = none) :
    (dispatch cfg isGet methods name params
        = .error (.jsonrpc (methodNotFoundError (some
          ("Method `" ++ name ++ "` not found")))) ∧
      (methodNotFoundError (some ("Method `" ++ name ++ "` not found"))).code
        = -32601 ∧
      (response cfg (some (.jsonrpc (methodNotFoundError (some
          ("Method `" ++ name ++ "` not found"))))) .null rid).status
        = (if cfg.http_errors then 404 else 200)) ∧
    (response cfg (some (.jsonrpc e)) .null rid).status
      = (if cfg.http_errors then e.http_status else 200) := by
  refine ⟨⟨?_, rfl, ?_⟩, ?_⟩
  · simp [dispatch, h]
  · simp [response, methodNotFoundError]
  · simp [response]

/-- Witness for C6: calling the undeclared `nope` on an empty registry with
`http_errors` on yields the -32601 error and status 404. -/
theorem c6_unknown_method_witness :
    dispatch ⟨false, false, true, false⟩ false [] "nope" (.arr [])
      = .error (.jsonrpc (methodNotFoundError (some
        "Method `nope` not found"))) ∧
    (response ⟨false, false, true, false⟩ (some (.jsonrpc
      (methodNotFoundError (some "Method `nope` not found")))) .null
      none).status = 404 :=
  have h := c6_unknown_method_404 ⟨false, false, true, false⟩ false [] "nope"
    (.arr []) none (parseError none none) rfl
  ⟨h.1.1, h.1.2.2⟩

/-- C8: every response envelope built by `_response` holds the `jsonrpc`
field, an `id` field, and exactly one of `result` and `error` — never both
and never neither, independently of which stage failed. -/
theorem c8_envelope_exactly_one (cfg : ServiceCfg) (ex : Option PyException)
    (result : JSONValue) (rid : Option JSONValue) :
    dictGet (response cfg ex result rid).body "jsonrpc"
      = some (.jstr "2.0") ∧
    (dictGet (response cfg ex result rid).body "id").isSome = true ∧
    (dictGet (response cfg ex result rid).body "error").isSome
      = !(dictGet (response cfg ex result rid).body "result").isSome := by
  obtain ⟨d, g, he, v⟩ := cfg
  cases ex <;> cases d <;> exact ⟨rfl, rfl, rfl⟩

/-- C10: a request envelope whose `id` is a JSON boolean passes
`_valid_jsonrpc_id` — `isinstance(rid, (int, basestring))` holds because
`bool` is a subclass of `int` — and the boolean is echoed as the `id` of the
response. -/
theorem c10_bool_id_accepted (json_req : List (String × JSONValue)) (b : Bool)
    (cfg : ServiceCfg) (result : JSONValue)
    (h : dictGet json_req "id" = some (.bool b)) :
    valid_jsonrpc_id json_req = .ok (.bool b) ∧
    dictGet (response cfg none result (some (.bool b))).body "id"
      = some (.j (.bool b)) := by
  constructor
  · simp [valid_jsonrpc_id, h, isinstance_int_or_basestring]
  · obtain ⟨d, g, he, v⟩ := cfg
    cases d <;> rfl

/-- Witness for C10: the envelope `{"id": true}` passes the id check and the
response echoes `true`. -/
theorem c10_bool_id_witness :
    valid_jsonrpc_id [("id", JSONValue.bool true)] = .ok (.bool true) ∧
    dictGet (response ⟨false, false, true, false⟩ none .null
      (some (.bool true))).body "id" = some (.j (.bool true)) :=
  c10_bool_id_accepted [("id", JSONValue.bool true)] true
    ⟨false, false, true, false⟩ .null rfl

/-- When every token matches `ARG_RE` and the extracted optional flags show
a required parameter after an optional one (relative to the incoming
`opt_flag`), the argument loop fails with the dedicated ordering error. -/
theorem parseArgsLoop_ordering (sig : String) :
    ∀ (ts : List String) (parsed : List (String × String × Bool)) (flag : Bool),
    argMatches ts = some parsed →
    (if flag then (parsed.map fun p => p.2.2).any (fun x => !x)
     else reqAfterOpt (parsed.map fun p => p.2.2)) = true →
    parseArgsLoop sig ts flag = .error (.orderingErr sig) := by
  intro ts
  induction ts with
  | nil =>
    intro parsed flag h hflag
    simp [argMatches] at h
    subst h
    cases flag <;> simp [reqAfterOpt] at hflag
  | cons t ts ih =>
    intro parsed flag h hflag
    cases hm : argMatch t with
    | none => simp [argMatches, hm] at h
    | some p =>
      cases hms : argMatches ts with
      | none => simp [argMatches, hm, hms] at h
      | some ps =>
        simp only [argMatches, hm, hms] at h
        cases h
        obtain ⟨n, t', opt⟩ := p
        cases opt with
        | true =>
          have hrest : (ps.map fun p => p.2.2).any (fun x => !x) = true := by
            cases flag <;> simpa [reqAfterOpt] using hflag
          simp only [parseArgsLoop, hm]
          rw [ih ps true hms (by simpa using hrest)]
          rfl
        | false =>
          cases flag with
          | true => simp [parseArgsLoop, hm]
          | false =>
            have hrest : reqAfterOpt (ps.map fun p => p.2.2) = true := by
              simpa [reqAfterOpt] using hflag
            simp only [parseArgsLoop, hm]
            rw [ih ps false hms (by simpa using hrest)]
            rfl

/-- C7: for every signature string whose overall shape matches the signature
grammar and whose comma-separated argument tokens all match the argument
grammar, if a required parameter follows an optional one then
`params_from_signature` fails with the dedicated ordering error naming the
signature — never with the generic signature-syntax error. -/
theorem c7_ordering_error (sig nm args rtype : String)
    (parsed : List (String × String × Bool))
    (h1 : sigMatch sig = some (nm, args, rtype))
    (h2 : args.isEmpty = false)
    (h3 : argMatches (splitCommaSpace args) = some parsed)
    (h4 : reqAfterOpt (parsed.map fun p => p.2.2) = true) :
    params_from_signature sig = .error (.orderingErr sig) := by
  unfold params_from_signature
  rw [h1]
  simp only [h2, Bool.false_eq_true, if_false]
  exact parseArgsLoop_ordering sig _ parsed false h3 (by simpa using h4)

/-- Witness for C7: parsing `name(a=<num>?, b=<str>) -> <num>` (optional
before required) fails with the ordering error naming that signature. -/
theorem c7_ordering_witness :
    params_from_signature "name(a=<num>?, b=<str>) -> <num>"
      = .error (.orderingErr "name(a=<num>?, b=<str>) -> <num>") :=
  c7_ordering_error "name(a=<num>?, b=<str>) -> <num>" "name"
    "a=<num>?, b=<str>" "num" [("a", "num", true), ("b", "str", false)]
    rfl rfl rfl rfl

end JsonRpc
